import Mathlib

/-!
Verification development for the kraken-trading-bot decision core.

The embedding follows the repository's Python sources:
  * `TechnicalAnalysis` — src/technical_analysis.py (indicator engine)
  * `MarketDataProcessor` — src/technical_analysis.py (snapshot builder)
  * `SignalGenerator` — src/signal_generator.py
  * `RiskManager` — src/risk_manager.py

Numeric values (Python floats / numpy float64) are embedded as exact
rationals `ℚ`.  numpy's NaN, which the source only ever produces for
warm-up entries of indicator arrays (and which never reaches any value a
theorem below inspects), is represented by the placeholder `nanQ`.
`pandas.rolling(...).std()` takes a floating-point square root, which has
no exact rational counterpart; the square-root function is therefore a
parameter `sqrtQ` threaded through `calculate_bollinger_bands`,
`process_ohlcv` and `generate_signal`.  Every statement proved below is
either independent of `sqrtQ` or instantiates it explicitly.
-/

set_option allowUnsafeReducibility true in
attribute [semireducible] Rat.add Rat.mul Rat.sub Rat.div Rat.inv Rat.neg Rat.blt Rat.normalize

set_option maxRecDepth 100000

/-- Placeholder standing for numpy NaN in warm-up entries of indicator
arrays.  No theorem in this file inspects an entry that the source fills
with NaN. -/
def nanQ : ℚ := 0

/-- Arithmetic mean of a list, `np.mean` (0 on the empty list, which the
source never hits on the paths embedded here). -/
def listMean (l : List ℚ) : ℚ := l.sum / (l.length : ℚ)

namespace TechnicalAnalysis

/-- The recursive tail of `calculate_ema`:
`ema[i] = data[i] * multiplier + ema[i-1] * (1 - multiplier)`. -/
def ema_rec (multiplier : ℚ) : ℚ → List ℚ → List ℚ
  | _, [] => []
  | prev, x :: xs =>
    let e := x * multiplier + prev * (1 - multiplier)
    e :: ema_rec multiplier e xs

/-- `TechnicalAnalysis.calculate_ema`: seed the first `period` outputs with
the simple mean of the first `period` inputs, then recurse; all-NaN when
the input is shorter than `period`. -/
def calculate_ema (data : List ℚ) (period : ℕ) : List ℚ :=
  if data.length < period then List.replicate data.length nanQ
  else
    let multiplier : ℚ := 2 / ((period : ℚ) + 1)
    let seed := listMean (data.take period)
    List.replicate period seed ++ ema_rec multiplier seed (data.drop period)

/-- `pandas.Series(data).rolling(window=period).mean()`: entry `i` is the
mean of `data[i+1-period .. i]`, NaN before the window fills. -/
def rolling_mean (data : List ℚ) (period : ℕ) : List ℚ :=
  (List.range data.length).map fun i =>
    if i + 1 < period then nanQ
    else listMean ((data.drop (i + 1 - period)).take period)

/-- `TechnicalAnalysis.calculate_sma`: all-NaN when shorter than `period`,
otherwise the pandas rolling mean. -/
def calculate_sma (data : List ℚ) (period : ℕ) : List ℚ :=
  if data.length < period then List.replicate data.length nanQ
  else rolling_mean data period

/-- `pandas.Series(data).rolling(window=period).std()`: sample standard
deviation (ddof = 1) over each full window, through the square-root
parameter `sqrtQ`. -/
def rolling_std (sqrtQ : ℚ → ℚ) (data : List ℚ) (period : ℕ) : List ℚ :=
  (List.range data.length).map fun i =>
    if i + 1 < period then nanQ
    else
      let w := (data.drop (i + 1 - period)).take period
      let m := listMean w
      sqrtQ ((w.map fun x => (x - m) * (x - m)).sum / ((period : ℚ) - 1))

/-- The recursive tail of `calculate_rsi`, carrying Wilder's smoothed
averages `up` and `down`; one output per remaining delta. -/
def rsi_rec (period : ℕ) : ℚ → ℚ → List ℚ → List ℚ
  | _, _, [] => []
  | up, down, delta :: ds =>
    let upval := if delta > 0 then delta else 0
    let downval := if delta > 0 then 0 else -delta
    let up' := (up * ((period : ℚ) - 1) + upval) / (period : ℚ)
    let down' := (down * ((period : ℚ) - 1) + downval) / (period : ℚ)
    let rs := if down' ≠ 0 then up' / down' else 0
    (100 - 100 / (1 + rs)) :: rsi_rec period up' down' ds

/-- `TechnicalAnalysis.calculate_rsi`.  Note the source seeds from the
first `period + 1` deltas (dividing by `period`), and sets `rs = 0` —
hence RSI `= 0` — whenever the smoothed loss average is zero. -/
def calculate_rsi (data : List ℚ) (period : ℕ) : List ℚ :=
  if data.length < period + 1 then List.replicate data.length nanQ
  else
    let deltas := List.zipWith (fun a b => a - b) (data.drop 1) data
    let seed := deltas.take (period + 1)
    let up := (seed.filter fun d => d ≥ 0).sum / (period : ℚ)
    let down := -(seed.filter fun d => d < 0).sum / (period : ℚ)
    let rs := if down ≠ 0 then up / down else 0
    List.replicate period (100 - 100 / (1 + rs)) ++
      rsi_rec period up down (deltas.drop (period - 1))

/-- `TechnicalAnalysis.calculate_macd`: (macd, signal line, histogram). -/
def calculate_macd (data : List ℚ) (fast slow sig : ℕ) :
    List ℚ × List ℚ × List ℚ :=
  let ema_fast := calculate_ema data fast
  let ema_slow := calculate_ema data slow
  let macd := List.zipWith (fun a b => a - b) ema_fast ema_slow
  let signal_line := calculate_ema macd sig
  let histogram := List.zipWith (fun a b => a - b) macd signal_line
  (macd, signal_line, histogram)

/-- `TechnicalAnalysis.calculate_bollinger_bands`:
(upper, middle, lower) = (middle ± std·std_dev). -/
def calculate_bollinger_bands (sqrtQ : ℚ → ℚ) (data : List ℚ)
    (period : ℕ) (std_dev : ℚ) : List ℚ × List ℚ × List ℚ :=
  let middle := calculate_sma data period
  let std := rolling_std sqrtQ data period
  let upper := List.zipWith (fun m s => m + s * std_dev) middle std
  let lower := List.zipWith (fun m s => m - s * std_dev) middle std
  (upper, middle, lower)

/-- `np.roll(l, 1)`: the last element moves to the front. -/
def roll1 (l : List ℚ) : List ℚ :=
  match l.getLast? with
  | none => []
  | some x => x :: l.dropLast

/-- Replace the head of `tr` with the head of `tr1`
(the source's `tr[0] = tr1[0]`). -/
def set_head_from (tr tr1 : List ℚ) : List ℚ :=
  match tr, tr1 with
  | _ :: ts, t :: _ => t :: ts
  | ts, _ => ts

/-- `TechnicalAnalysis.calculate_atr`: true range from high/low/previous
close (`np.roll(close, 1)`), first entry forced to `high[0] - low[0]`,
then an SMA over `period`. -/
def calculate_atr (high low close : List ℚ) (period : ℕ) : List ℚ :=
  if high.length < period then List.replicate high.length nanQ
  else
    let prev_close := roll1 close
    let tr1 := List.zipWith (fun a b => a - b) high low
    let tr2 := List.zipWith (fun a b => |a - b|) high prev_close
    let tr3 := List.zipWith (fun a b => |a - b|) low prev_close
    let tr := List.zipWith max tr1 (List.zipWith max tr2 tr3)
    calculate_sma (set_head_from tr tr1) period

/-- `TechnicalAnalysis.calculate_adx`.  Elementwise quotients follow ℚ
semantics (`x / 0 = 0`) on warm-up entries where numpy would hold NaN; no
theorem below inspects such an entry. -/
def calculate_adx (high low close : List ℚ) (period : ℕ) : List ℚ :=
  if high.length < period * 2 then List.replicate high.length nanQ
  else
    let up_move := List.zipWith (fun a b => a - b) (high.drop 1) high
    let down_move := List.zipWith (fun a b => a - b) low (low.drop 1)
    let pos_dm := List.zipWith
      (fun u d => if u > d ∧ u > 0 then u else 0) up_move down_move
    let neg_dm := List.zipWith
      (fun u d => if d > u ∧ d > 0 then d else 0) up_move down_move
    let tr1 := List.zipWith (fun a b => a - b) (high.drop 1) (low.drop 1)
    let tr2 := List.zipWith (fun a b => |a - b|) (high.drop 1) close
    let tr3 := List.zipWith (fun a b => |a - b|) (low.drop 1) close
    let tr := List.zipWith max tr1 (List.zipWith max tr2 tr3)
    let di_plus := List.zipWith (fun a b => 100 * a / b)
      (calculate_sma pos_dm period) (calculate_sma tr period)
    let di_minus := List.zipWith (fun a b => 100 * a / b)
      (calculate_sma neg_dm period) (calculate_sma tr period)
    let dx := List.zipWith
      (fun p m => 100 * |p - m| / (p + m + 1 / 10000000000)) di_plus di_minus
    calculate_sma dx period

end TechnicalAnalysis

/-- `TechnicalIndicators` (src/technical_analysis.py): the snapshot record
produced by `process_ohlcv`.  Note it has no `close` field and no
`macd_histogram_prev` field. -/
structure TechnicalIndicators where
  ema_12 : ℚ
  ema_50 : ℚ
  ema_200 : ℚ
  rsi_14 : ℚ
  macd : ℚ
  macd_signal : ℚ
  macd_histogram : ℚ
  bb_upper : ℚ
  bb_middle : ℚ
  bb_lower : ℚ
  atr_14 : ℚ
  adx_14 : ℚ
  volume_ma : ℚ
  current_volume : ℚ
  deriving DecidableEq, Repr

namespace MarketDataProcessor

/-- Column `j` of the OHLCV matrix (`data[:, j]`); rows are the source's
6-field bars `[time, open, high, low, close, volume]`. -/
def col (ohlcv_data : List (List ℚ)) (j : ℕ) : List ℚ :=
  ohlcv_data.map fun row => row.getD j 0

/-- `MarketDataProcessor.process_ohlcv`.  Faithful to the source, which
assigns `high = data[:, 3]` and `low = data[:, 2]` — the documented bar
layout `[time, open, high, low, close, volume]` has high at index 2 and
low at index 3, so the two series are swapped. -/
def process_ohlcv (sqrtQ : ℚ → ℚ) (min_candles : ℕ)
    (ohlcv_data : List (List ℚ)) : Option TechnicalIndicators :=
  if ohlcv_data.length < min_candles then none
  else
    let close := col ohlcv_data 4
    let high := col ohlcv_data 3
    let low := col ohlcv_data 2
    let volume := col ohlcv_data 5
    let ema_12 := (TechnicalAnalysis.calculate_ema close 12).getLastD nanQ
    let ema_50 := (TechnicalAnalysis.calculate_ema close 50).getLastD nanQ
    let ema_200 := (TechnicalAnalysis.calculate_ema close 200).getLastD nanQ
    let rsi_14 := (TechnicalAnalysis.calculate_rsi close 14).getLastD nanQ
    let macd3 := TechnicalAnalysis.calculate_macd close 12 26 9
    let bb3 := TechnicalAnalysis.calculate_bollinger_bands sqrtQ close 20 2
    let atr_14 := (TechnicalAnalysis.calculate_atr high low close 14).getLastD nanQ
    let adx_14 := (TechnicalAnalysis.calculate_adx high low close 14).getLastD nanQ
    let volume_ma := (TechnicalAnalysis.calculate_sma volume 50).getLastD nanQ
    let current_volume := volume.getLastD nanQ
    some
      { ema_12 := ema_12
        ema_50 := ema_50
        ema_200 := ema_200
        rsi_14 := rsi_14
        macd := macd3.1.getLastD nanQ
        macd_signal := macd3.2.1.getLastD nanQ
        macd_histogram := macd3.2.2.getLastD nanQ
        bb_upper := bb3.1.getLastD nanQ
        bb_middle := bb3.2.1.getLastD nanQ
        bb_lower := bb3.2.2.getLastD nanQ
        atr_14 := atr_14
        adx_14 := adx_14
        volume_ma := volume_ma
        current_volume := current_volume }

/-- `MarketDataProcessor.get_trend`: trend classification from EMA
ordering (Python's chained `a > b > c`). -/
def get_trend (indicators : TechnicalIndicators) : String :=
  if indicators.ema_12 > indicators.ema_50 ∧ indicators.ema_50 > indicators.ema_200 then
    "UPTREND"
  else if indicators.ema_12 < indicators.ema_50 ∧ indicators.ema_50 < indicators.ema_200 then
    "DOWNTREND"
  else
    "SIDEWAYS"

end MarketDataProcessor

/-- `SignalType` (src/signal_generator.py). -/
inductive SignalType where
  | BUY
  | SELL
  | NEUTRAL
  deriving DecidableEq, Repr

/-- The `AttributeError`s the signal generator can raise: it reads
`indicators.close` and `indicators.macd_histogram_prev`, neither of which
is a field of `TechnicalIndicators`. -/
inductive AttrError where
  | close_attr
  | macd_histogram_prev_attr
  deriving DecidableEq, Repr

/-- The seven-field dict the source stores as `indicators_snapshot` on an
emitted `TradingSignal`. -/
structure IndicatorsSnapshot where
  ema_12 : ℚ
  ema_50 : ℚ
  ema_200 : ℚ
  rsi_14 : ℚ
  macd : ℚ
  atr_14 : ℚ
  adx_14 : ℚ
  deriving DecidableEq, Repr

/-- `TradingSignal` (src/signal_generator.py).  `reasoning` is the
source's `"; ".join(reasoning_parts)` (accented letters transliterated). -/
structure TradingSignal where
  signal_type : SignalType
  confidence : ℚ
  entry_price : ℚ
  stop_loss : ℚ
  take_profit_1 : ℚ
  take_profit_2 : ℚ
  take_profit_3 : ℚ
  position_size_percent : ℚ
  reasoning : String
  indicators_snapshot : IndicatorsSnapshot
  deriving DecidableEq, Repr

/-- `SignalGenerator.__init__`'s configuration fields. -/
structure SignalConfig where
  rsi_oversold : ℚ
  rsi_overbought : ℚ
  adx_threshold : ℚ
  volume_threshold : ℚ
  min_confidence : ℚ
  deriving DecidableEq, Repr

namespace SignalGenerator

/-- The constructor defaults: oversold 30, overbought 70, ADX 25,
volume 1.1, min confidence 0.75. -/
def defaultConfig : SignalConfig :=
  { rsi_oversold := 30
    rsi_overbought := 70
    adx_threshold := 25
    volume_threshold := 11 / 10
    min_confidence := 3 / 4 }

/-- `SignalGenerator._check_trend_confirmation`.  Python's `or`
short-circuits, so `indicators.close` (absent from the record) is only
read — raising `AttributeError` — when the first disjunct is false. -/
def check_trend_confirmation (g : SignalConfig) (indicators : TechnicalIndicators)
    (trend : String) : Except AttrError Bool :=
  if trend = "UPTREND" then
    match (if indicators.ema_12 > indicators.ema_50 then Except.ok true
           else Except.error AttrError.close_attr : Except AttrError Bool) with
    | Except.error e => Except.error e
    | Except.ok ema_aligned =>
      let trend_strong := decide (indicators.adx_14 > g.adx_threshold - 5)
      Except.ok (ema_aligned && trend_strong)
  else if trend = "DOWNTREND" then
    match (if indicators.ema_12 < indicators.ema_50 then Except.ok true
           else Except.error AttrError.close_attr : Except AttrError Bool) with
    | Except.error e => Except.error e
    | Except.ok ema_aligned =>
      let trend_strong := decide (indicators.adx_14 > g.adx_threshold - 5)
      Except.ok (ema_aligned && trend_strong)
  else
    Except.ok false

/-- `SignalGenerator._check_momentum_signal`.  The `macd_signal`
assignment reads `indicators.macd_histogram_prev` (absent from the
record) — raising `AttributeError` — whenever the first disjunct of the
`or` is false; this happens before the `rsi_signal and macd_signal`
return, whatever `rsi_signal` is. -/
def check_momentum_signal (g : SignalConfig) (indicators : TechnicalIndicators)
    (signal_type : SignalType) : Except AttrError Bool :=
  match signal_type with
  | SignalType.BUY =>
    let rsi_signal := decide (indicators.rsi_14 < g.rsi_oversold + 10)
    match (if indicators.macd_histogram > 0 then Except.ok true
           else Except.error AttrError.macd_histogram_prev_attr : Except AttrError Bool) with
    | Except.error e => Except.error e
    | Except.ok macd_ok => Except.ok (rsi_signal && macd_ok)
  | SignalType.SELL =>
    let rsi_signal := decide (indicators.rsi_14 > g.rsi_overbought - 10)
    match (if indicators.macd_histogram < 0 then Except.ok true
           else Except.error AttrError.macd_histogram_prev_attr : Except AttrError Bool) with
    | Except.error e => Except.error e
    | Except.ok macd_ok => Except.ok (rsi_signal && macd_ok)
  | SignalType.NEUTRAL => Except.ok false

/-- `SignalGenerator._check_bollinger_bands_signal`. -/
def check_bollinger_bands_signal (indicators : TechnicalIndicators)
    (current_price : ℚ) (signal_type : SignalType) : Bool :=
  match signal_type with
  | SignalType.BUY =>
    let bb_range := indicators.bb_upper - indicators.bb_lower
    decide (current_price - indicators.bb_lower < bb_range * (2 / 10))
  | SignalType.SELL =>
    let bb_range := indicators.bb_upper - indicators.bb_lower
    decide (indicators.bb_upper - current_price < bb_range * (2 / 10))
  | SignalType.NEUTRAL => false

/-- `SignalGenerator._check_volume_confirmation`. -/
def check_volume_confirmation (g : SignalConfig)
    (indicators : TechnicalIndicators) : Bool :=
  decide (indicators.current_volume > indicators.volume_ma * g.volume_threshold)

/-- `SignalGenerator._calculate_position_size` (confidence-scaled
position-size hint; the source's `max_position_size` default is 0.10). -/
def calculate_position_size_pct (confidence max_position_size : ℚ) : ℚ :=
  max_position_size * confidence

/-- The indicator fields copied onto an emitted signal. -/
def snapshot_of (indicators : TechnicalIndicators) : IndicatorsSnapshot :=
  { ema_12 := indicators.ema_12
    ema_50 := indicators.ema_50
    ema_200 := indicators.ema_200
    rsi_14 := indicators.rsi_14
    macd := indicators.macd
    atr_14 := indicators.atr_14
    adx_14 := indicators.adx_14 }

/-- `SignalGenerator._generate_buy_signal`: the two mandatory checks
short-circuit to no signal; Bollinger and volume only add weight. -/
def generate_buy_signal (g : SignalConfig) (indicators : TechnicalIndicators)
    (current_price atr_multiplier : ℚ) : Except AttrError (Option TradingSignal) :=
  match check_trend_confirmation g indicators "UPTREND" with
  | Except.error e => Except.error e
  | Except.ok tc =>
    if ¬ tc then Except.ok none
    else
      match check_momentum_signal g indicators SignalType.BUY with
      | Except.error e => Except.error e
      | Except.ok mc =>
        if ¬ mc then Except.ok none
        else
          let bb_ok := check_bollinger_bands_signal indicators current_price SignalType.BUY
          let vol_ok := check_volume_confirmation g indicators
          let confidence_score : ℚ :=
            3 / 10 + 3 / 10 + (if bb_ok then 2 / 10 else 0) + (if vol_ok then 2 / 10 else 0)
          if confidence_score < g.min_confidence then Except.ok none
          else
            let reasoning_parts :=
              ["Tendencia alcista confirmada", "Senal de momentum alcista"] ++
                (if bb_ok then ["Precio en banda inferior de Bollinger"] else []) ++
                (if vol_ok then ["Volumen confirmado"] else [])
            Except.ok (some
              { signal_type := SignalType.BUY
                confidence := confidence_score
                entry_price := current_price
                stop_loss := current_price - indicators.atr_14 * atr_multiplier
                take_profit_1 := current_price + indicators.atr_14 * (3 / 2)
                take_profit_2 := current_price + indicators.atr_14 * (5 / 2)
                take_profit_3 := current_price + indicators.atr_14 * 4
                position_size_percent := calculate_position_size_pct confidence_score (1 / 10)
                reasoning := String.intercalate "; " reasoning_parts
                indicators_snapshot := snapshot_of indicators })

/-- `SignalGenerator._generate_sell_signal`. -/
def generate_sell_signal (g : SignalConfig) (indicators : TechnicalIndicators)
    (current_price atr_multiplier : ℚ) : Except AttrError (Option TradingSignal) :=
  match check_trend_confirmation g indicators "DOWNTREND" with
  | Except.error e => Except.error e
  | Except.ok tc =>
    if ¬ tc then Except.ok none
    else
      match check_momentum_signal g indicators SignalType.SELL with
      | Except.error e => Except.error e
      | Except.ok mc =>
        if ¬ mc then Except.ok none
        else
          let bb_ok := check_bollinger_bands_signal indicators current_price SignalType.SELL
          let vol_ok := check_volume_confirmation g indicators
          let confidence_score : ℚ :=
            3 / 10 + 3 / 10 + (if bb_ok then 2 / 10 else 0) + (if vol_ok then 2 / 10 else 0)
          if confidence_score < g.min_confidence then Except.ok none
          else
            let reasoning_parts :=
              ["Tendencia bajista confirmada", "Senal de momentum bajista"] ++
                (if bb_ok then ["Precio en banda superior de Bollinger"] else []) ++
                (if vol_ok then ["Volumen confirmado"] else [])
            Except.ok (some
              { signal_type := SignalType.SELL
                confidence := confidence_score
                entry_price := current_price
                stop_loss := current_price + indicators.atr_14 * atr_multiplier
                take_profit_1 := current_price - indicators.atr_14 * (3 / 2)
                take_profit_2 := current_price - indicators.atr_14 * (5 / 2)
                take_profit_3 := current_price - indicators.atr_14 * 4
                position_size_percent := calculate_position_size_pct confidence_score (1 / 10)
                reasoning := String.intercalate "; " reasoning_parts
                indicators_snapshot := snapshot_of indicators })

/-- The tail of `generate_signal`'s two branches: propagate an
exception, and return the candidate signal only when it exists and its
confidence clears `min_confidence` (`if sig and sig.confidence >=
self.min_confidence: return sig`), else no signal. -/
def screen_signal (g : SignalConfig)
    (r : Except AttrError (Option TradingSignal)) :
    Except AttrError (Option TradingSignal) :=
  match r with
  | Except.error e => Except.error e
  | Except.ok (some b) =>
    if b.confidence ≥ g.min_confidence then Except.ok (some b) else Except.ok none
  | Except.ok none => Except.ok none

/-- `SignalGenerator.generate_signal`.  The generator's processor is
`MarketDataProcessor()` with its default `min_candles = 200`. -/
def generate_signal (g : SignalConfig) (sqrtQ : ℚ → ℚ)
    (ohlcv_data : List (List ℚ)) (current_price atr_multiplier : ℚ) :
    Except AttrError (Option TradingSignal) :=
  match MarketDataProcessor.process_ohlcv sqrtQ 200 ohlcv_data with
  | none => Except.ok none
  | some indicators =>
    let trend := MarketDataProcessor.get_trend indicators
    if trend = "UPTREND" then
      screen_signal g (generate_buy_signal g indicators current_price atr_multiplier)
    else if trend = "DOWNTREND" then
      screen_signal g (generate_sell_signal g indicators current_price atr_multiplier)
    else
      Except.ok none

end SignalGenerator

/-- `PositionStatus` (src/risk_manager.py). -/
inductive PositionStatus where
  | OPEN
  | PARTIALLY_CLOSED
  | CLOSED
  | STOPPED_OUT
  deriving DecidableEq, Repr

/-- `Position` (src/risk_manager.py).  `entry_time` (a wall-clock
datetime) is outside the embedding; no operation modelled here reads
it. -/
structure Position where
  position_id : String
  pair : String
  side : String
  entry_price : ℚ
  volume : ℚ
  stop_loss : ℚ
  take_profit_1 : ℚ
  take_profit_2 : ℚ
  take_profit_3 : ℚ
  status : PositionStatus := PositionStatus.OPEN
  volume_closed_tp1 : ℚ := 0
  volume_closed_tp2 : ℚ := 0
  volume_closed_tp3 : ℚ := 0
  current_price : ℚ := 0
  unrealized_pnl : ℚ := 0
  realized_pnl : ℚ := 0
  deriving DecidableEq, Repr

namespace Position

/-- `Position.get_open_volume`. -/
def get_open_volume (p : Position) : ℚ :=
  p.volume - p.volume_closed_tp1 - p.volume_closed_tp2 - p.volume_closed_tp3

/-- The PnL the source realizes when closing `volume` units at
`close_price` (the computation repeated in `close_position_partial` and
`close_position_stop_loss`): `(close − entry) × volume` for a buy,
`(entry − close) × volume` otherwise. -/
def close_pnl (p : Position) (close_price volume : ℚ) : ℚ :=
  if p.side = "buy" then (close_price - p.entry_price) * volume
  else (p.entry_price - close_price) * volume

/-- `Position.update_current_price`. -/
def update_current_price (p : Position) (price : ℚ) : Position :=
  { p with
    current_price := price
    unrealized_pnl :=
      if p.side = "buy" then (price - p.entry_price) * p.get_open_volume
      else (p.entry_price - price) * p.get_open_volume }

end Position

/-- `RiskConfig` (src/risk_manager.py), constructor defaults noted in the
theorems that use them. -/
structure RiskConfig where
  total_capital : ℚ
  risk_per_trade : ℚ := 1 / 50
  max_positions : ℕ := 5
  max_position_size : ℚ := 1 / 10
  max_drawdown : ℚ := 3 / 20
  max_consecutive_losses : ℕ := 3
  trailing_stop_enabled : Bool := true
  trailing_stop_distance : ℚ := 1 / 20
  pause_after_max_losses : Bool := true
  pause_duration_minutes : ℕ := 60
  deriving DecidableEq, Repr

/-- Dict lookup, `positions[pid]` / `pid in positions`; the Python dict
is embedded as an insertion-ordered association list with unique keys. -/
def dictLookup : List (String × Position) → String → Option Position
  | [], _ => none
  | (k, v) :: t, pid => if k = pid then some v else dictLookup t pid

/-- Dict removal, `positions.pop(pid)` (keys are unique). -/
def dictErase : List (String × Position) → String → List (String × Position)
  | [], _ => []
  | (k, v) :: t, pid =>
    if k = pid then dictErase t pid else (k, v) :: dictErase t pid

/-- In-place replacement of the Position object stored under an existing
key (the source mutates the dict's value). -/
def dictUpdate : List (String × Position) → String → Position → List (String × Position)
  | [], _, _ => []
  | (k, v) :: t, pid, v2 =>
    if k = pid then (pid, v2) :: dictUpdate t pid v2
    else (k, v) :: dictUpdate t pid v2

/-- `positions[pid] = position`: replace under an existing key, append a
new one (Python dicts keep insertion order). -/
def dictInsert (l : List (String × Position)) (pid : String) (v : Position) :
    List (String × Position) :=
  if (dictLookup l pid).isSome then dictUpdate l pid v else l ++ [(pid, v)]

/-- The `RiskManager`'s mutable state.  `load_state` (file persistence)
is modelled as finding no prior snapshot, giving `RiskManager.init`
below; `save_state` writes the snapshot and does not change this
state. -/
structure RiskManager where
  config : RiskConfig
  positions : List (String × Position)
  closed_positions : List Position
  consecutive_losses : ℕ
  total_realized_pnl : ℚ
  peak_capital : ℚ
  deriving DecidableEq, Repr

namespace RiskManager

/-- `RiskManager.__init__` with no prior persisted snapshot. -/
def init (config : RiskConfig) : RiskManager :=
  { config := config
    positions := []
    closed_positions := []
    consecutive_losses := 0
    total_realized_pnl := 0
    peak_capital := config.total_capital }

/-- `RiskManager.get_current_capital`:
initial capital + realized PnL + unrealized PnL of live positions. -/
def get_current_capital (rm : RiskManager) : ℚ :=
  rm.config.total_capital + rm.total_realized_pnl +
    (rm.positions.map fun p => p.2.unrealized_pnl).sum

/-- `RiskManager.get_available_capital`:
current capital minus Σ entry_price × open volume over live positions. -/
def get_available_capital (rm : RiskManager) : ℚ :=
  rm.get_current_capital -
    (rm.positions.map fun p => p.2.entry_price * p.2.get_open_volume).sum

/-- `RiskManager.get_drawdown`. -/
def get_drawdown (rm : RiskManager) : ℚ :=
  (rm.peak_capital - rm.get_current_capital) / rm.peak_capital

/-- `RiskManager.can_open_position` (the reason strings shortened). -/
def can_open_position (rm : RiskManager) : Bool × String :=
  if rm.positions.length ≥ rm.config.max_positions then
    (false, "Maximo de posiciones alcanzado")
  else
    let drawdown := (rm.peak_capital - rm.get_current_capital) / rm.peak_capital
    if drawdown > rm.config.max_drawdown then
      (false, "Drawdown maximo alcanzado")
    else if rm.consecutive_losses ≥ rm.config.max_consecutive_losses ∧
        rm.config.pause_after_max_losses = true then
      (false, "Maximo de perdidas consecutivas")
    else
      (true, "OK")

/-- `RiskManager.calculate_position_size`: risk budget over per-unit
risk, then capped by the max-position fraction of capital and by the
available capital. -/
def calculate_position_size (rm : RiskManager)
    (entry_price stop_loss confidence : ℚ) : ℚ :=
  let risk_amount := rm.config.total_capital * rm.config.risk_per_trade * confidence
  let risk_per_unit := |entry_price - stop_loss|
  if risk_per_unit = 0 then 0
  else
    let volume := risk_amount / risk_per_unit
    let max_volume := rm.config.total_capital * rm.config.max_position_size / entry_price
    let volume := min volume max_volume
    let max_volume_by_capital := rm.get_available_capital / entry_price
    min volume max_volume_by_capital

/-- `RiskManager.open_position`: denied by `can_open_position`, otherwise
stores a fresh OPEN position under `position_id`. -/
def open_position (rm : RiskManager) (position_id pair side : String)
    (entry_price volume stop_loss take_profit_1 take_profit_2 take_profit_3 : ℚ) :
    RiskManager × Bool :=
  if (rm.can_open_position).1 = false then (rm, false)
  else
    let position : Position :=
      { position_id := position_id
        pair := pair
        side := side
        entry_price := entry_price
        volume := volume
        stop_loss := stop_loss
        take_profit_1 := take_profit_1
        take_profit_2 := take_profit_2
        take_profit_3 := take_profit_3 }
    ({ rm with positions := dictInsert rm.positions position_id position }, true)

/-- `RiskManager.update_position_price`: no-op on an unknown id. -/
def update_position_price (rm : RiskManager) (position_id : String)
    (current_price : ℚ) : RiskManager :=
  match dictLookup rm.positions position_id with
  | none => rm
  | some position =>
    let position1 := position.update_current_price current_price
    { rm with positions := dictUpdate rm.positions position_id position1 }

/-- The tail of `close_position_partial` shared by the three take-profit
levels (src/risk_manager.py lines 397-419): realize the slice's PnL, move
to the closed list when nothing remains open, otherwise mark the position
PARTIALLY_CLOSED. -/
def settle_partial_close (rm : RiskManager) (position_id : String)
    (position : Position) (close_price volume_to_close : ℚ)
    (position1 : Position) : RiskManager × ℚ :=
  let pnl := position.close_pnl close_price volume_to_close
  let position2 := { position1 with realized_pnl := position1.realized_pnl + pnl }
  let rm1 := { rm with total_realized_pnl := rm.total_realized_pnl + pnl }
  if position2.get_open_volume = 0 then
    let position3 := { position2 with status := PositionStatus.CLOSED }
    ({ rm1 with
        positions := dictErase rm1.positions position_id,
        closed_positions := rm1.closed_positions ++ [position3] }, volume_to_close)
  else
    let position3 := { position2 with status := PositionStatus.PARTIALLY_CLOSED }
    ({ rm1 with
        positions := dictUpdate rm1.positions position_id position3 }, volume_to_close)

/-- `RiskManager.close_position_partial`: 30% of the original volume at
target 1, 40% at target 2, 30% at target 3; 0 for an unknown id or an
unknown level. -/
def close_position_partial (rm : RiskManager) (position_id : String)
    (tp_level : ℕ) (close_price : ℚ) : RiskManager × ℚ :=
  match dictLookup rm.positions position_id with
  | none => (rm, 0)
  | some position =>
    if tp_level = 1 then
      settle_partial_close rm position_id position close_price
        (position.volume * (3 / 10))
        { position with volume_closed_tp1 := position.volume * (3 / 10) }
    else if tp_level = 2 then
      settle_partial_close rm position_id position close_price
        (position.volume * (4 / 10))
        { position with volume_closed_tp2 := position.volume * (4 / 10) }
    else if tp_level = 3 then
      settle_partial_close rm position_id position close_price
        (position.volume * (3 / 10))
        { position with volume_closed_tp3 := position.volume * (3 / 10) }
    else (rm, 0)

/-- `RiskManager.close_position_stop_loss`: close the whole remaining
open volume, realize its PnL, mark STOPPED_OUT and move the position to
the closed list, and update the consecutive-loss counter from this
event's PnL sign. -/
def close_position_stop_loss (rm : RiskManager) (position_id : String)
    (close_price : ℚ) : RiskManager × ℚ :=
  match dictLookup rm.positions position_id with
  | none => (rm, 0)
  | some position =>
    let volume_to_close := position.get_open_volume
    let pnl := position.close_pnl close_price volume_to_close
    let position2 :=
      { position with
          realized_pnl := position.realized_pnl + pnl
          status := PositionStatus.STOPPED_OUT }
    ({ rm with
        total_realized_pnl := rm.total_realized_pnl + pnl,
        positions := dictErase rm.positions position_id,
        closed_positions := rm.closed_positions ++ [position2],
        consecutive_losses := if pnl < 0 then rm.consecutive_losses + 1 else 0 },
      volume_to_close)

end RiskManager

/-! ## Concrete inputs used by the theorems -/

/-- Stand-in square root for instantiating `sqrtQ`; every property below
that uses it is independent of the square root's values. -/
def sqrt0 : ℚ → ℚ := fun _ => 0

/-- 200 chronologically ordered bars
`[t, open, high, low, close, volume] = [i, 100+i, 101+i, 99+i, 100+i, 1000]`
— a linearly rising market. -/
def rampWindow : List (List ℚ) :=
  (List.range 200).map fun i => [(i : ℚ), 100 + i, 101 + i, 99 + i, 100 + i, 1000]

/-- 200 constant bars `[i, 100, 110, 90, 100, 1000]`: every bar has
high 110 and low 90, so the true ATR is 20. -/
def flatWindow : List (List ℚ) :=
  (List.range 200).map fun i => [(i : ℚ), 100, 110, 90, 100, 1000]

/-- The strictly increasing price series 100, 101, ..., 150 of the spec's
RSI scenario. -/
def risingCloses : List ℚ := (List.range 51).map fun i => (100 + i : ℚ)

/-- A snapshot in the BUY momentum window: RSI 20 (below oversold + 10)
with a negative but rising MACD histogram (previous value would be
−2). -/
def momentumSnapshot : TechnicalIndicators :=
  { ema_12 := 50
    ema_50 := 45
    ema_200 := 40
    rsi_14 := 20
    macd := -1
    macd_signal := 0
    macd_histogram := -1
    bb_upper := 60
    bb_middle := 50
    bb_lower := 40
    atr_14 := 5
    adx_14 := 30
    volume_ma := 1000
    current_volume := 1200 }

/-- The spec's example risk configuration: capital 10000 and the
constructor defaults (risk 2%, max 5 positions, max position 10%,
max drawdown 15%, 3 consecutive losses). -/
def exampleConfig : RiskConfig := { total_capital := 10000 }

/-! ## Association-list (dict) lemmas -/

lemma dictLookup_dictErase (l : List (String × Position)) (k : String) :
    dictLookup (dictErase l k) k = none := by
  induction l with
  | nil => rfl
  | cons hd t ih =>
    obtain ⟨k', v⟩ := hd
    by_cases h : k' = k
    · simpa [dictErase, h] using ih
    · simp [dictErase, dictLookup, h, ih]

lemma dictLookup_dictUpdate (l : List (String × Position)) (k : String)
    (v2 : Position) (h : (dictLookup l k).isSome) :
    dictLookup (dictUpdate l k v2) k = some v2 := by
  induction l with
  | nil => simp [dictLookup] at h
  | cons hd t ih =>
    obtain ⟨k', v⟩ := hd
    by_cases hk : k' = k
    · simp [dictUpdate, dictLookup, hk]
    · simp [dictUpdate, dictLookup, hk] at h ⊢
      exact ih h

/-! ## C2: the momentum condition -/

/-- C2.  The spec's momentum rule says a BUY candidate with RSI below
(oversold + 10) and a negative-but-rising MACD histogram satisfies the
mandatory momentum condition.  On such a snapshot the code instead raises
`AttributeError`: the `or`'s fallback reads `macd_histogram_prev`, which
`TechnicalIndicators` does not define.  The biconditional the claim
states therefore fails on the code whenever the fallback branch is
decisive. -/
theorem momentum_check_raises_on_nonpositive_histogram :
    SignalGenerator.check_momentum_signal SignalGenerator.defaultConfig
      momentumSnapshot SignalType.BUY
      = Except.error AttrError.macd_histogram_prev_attr := by
  rfl

/-! ## C3: RSI when the smoothed loss is zero -/

/-- C3.  On the strictly increasing series 100, 101, ..., 150 the
smoothed average loss is zero at every index, and the source's
`rs = up / down if down != 0 else 0` makes `calculate_rsi` return
`100 − 100/(1+0) = 0` — not the 100 the spec defines for a zero average
loss. -/
theorem rsi_is_zero_on_rising_series :
    (TechnicalAnalysis.calculate_rsi risingCloses 14).getLastD 0 = 0
    ∧ ∀ r ∈ TechnicalAnalysis.calculate_rsi risingCloses 14, r = 0 := by
  constructor
  · decide
  · decide

/-! ## C4: the high/low columns fed to ATR and ADX -/

/-- C4.  `process_ohlcv` assigns `high = data[:, 3]` and
`low = data[:, 2]`, swapping the documented bar layout's high (index 2)
and low (index 3).  On 200 constant bars with high 110 and low 90 the
snapshot's ATR is 10, while `calculate_atr` on the true high/low/close
columns gives 20. -/
theorem process_ohlcv_swaps_high_low_columns :
    (MarketDataProcessor.process_ohlcv sqrt0 200 flatWindow).map
        (fun ind => ind.atr_14) = some 10
    ∧ (TechnicalAnalysis.calculate_atr (MarketDataProcessor.col flatWindow 2)
        (MarketDataProcessor.col flatWindow 3) (MarketDataProcessor.col flatWindow 4)
        14).getLastD 0 = 20 := by
  constructor
  · decide
  · decide

/-! ## C9: operations on an unknown position id -/

/-- C9.  On an id absent from the live position map,
`update_position_price`, `close_position_partial` and
`close_position_stop_loss` return `rm` unchanged together with their
false/zero result — in particular positions, closed history, realized
PnL and the consecutive-loss counter are untouched. -/
theorem unknown_position_id_operations_are_noops
    (rm : RiskManager) (pid : String) (price : ℚ) (tp_level : ℕ)
    (hmiss : dictLookup rm.positions pid = none) :
    RiskManager.update_position_price rm pid price = rm
    ∧ RiskManager.close_position_partial rm pid tp_level price = (rm, 0)
    ∧ RiskManager.close_position_stop_loss rm pid price = (rm, 0) := by
  refine ⟨?_, ?_, ?_⟩ <;>
    simp [RiskManager.update_position_price, RiskManager.close_position_partial,
      RiskManager.close_position_stop_loss, hmiss]

/-- Witness for C9 at a concrete manager and id. -/
theorem unknown_position_id_operations_are_noops_witness :
    dictLookup (RiskManager.init exampleConfig).positions "nope" = none
    ∧ RiskManager.update_position_price (RiskManager.init exampleConfig) "nope" 5
        = RiskManager.init exampleConfig :=
  ⟨rfl, (unknown_position_id_operations_are_noops
    (RiskManager.init exampleConfig) "nope" 5 1 rfl).1⟩

/-! ## C10: insufficient data -/

/-- C10.  A window shorter than the configured minimum makes
`process_ohlcv` return the insufficient-data result `none`, and
`generate_signal` (whose processor uses the default minimum of 200)
consequently returns `Except.ok none`: no signal and no exception. -/
theorem insufficient_data_refused
    (g : SignalConfig) (sqrtQ : ℚ → ℚ) (ohlcv_data : List (List ℚ))
    (price mult : ℚ) (min_candles : ℕ)
    (hm : ohlcv_data.length < min_candles) (h200 : ohlcv_data.length < 200) :
    MarketDataProcessor.process_ohlcv sqrtQ min_candles ohlcv_data = none
    ∧ SignalGenerator.generate_signal g sqrtQ ohlcv_data price mult
        = Except.ok none := by
  constructor
  · simp [MarketDataProcessor.process_ohlcv, hm]
  · simp [SignalGenerator.generate_signal, MarketDataProcessor.process_ohlcv, h200]

/-- Witness for C10 on the empty window with minimum 50. -/
theorem insufficient_data_refused_witness :
    ([] : List (List ℚ)).length < 50 ∧
      MarketDataProcessor.process_ohlcv sqrt0 50 [] = none :=
  ⟨by decide, (insufficient_data_refused SignalGenerator.defaultConfig sqrt0 []
    1 2 50 (by decide) (by decide)).1⟩

/-! ## C7: stop-loss closes the residual volume -/

/-- C7.  `close_position_stop_loss` on a live position closes exactly the
residual open volume, realizes its PnL, marks the position STOPPED_OUT,
removes it from the live set into the closed history, and increments the
consecutive-loss counter exactly when this event's PnL is negative,
resetting it to zero otherwise. -/
theorem stop_loss_closes_residual_volume
    (rm : RiskManager) (pid : String) (close_price : ℚ) (position : Position)
    (hlook : dictLookup rm.positions pid = some position) :
    (RiskManager.close_position_stop_loss rm pid close_price).2
        = position.get_open_volume
    ∧ (RiskManager.close_position_stop_loss rm pid close_price).1.positions
        = dictErase rm.positions pid
    ∧ dictLookup (RiskManager.close_position_stop_loss rm pid close_price).1.positions
        pid = none
    ∧ (RiskManager.close_position_stop_loss rm pid close_price).1.closed_positions
        = rm.closed_positions ++
          [{ position with
              realized_pnl := position.realized_pnl +
                position.close_pnl close_price position.get_open_volume,
              status := PositionStatus.STOPPED_OUT }]
    ∧ (RiskManager.close_position_stop_loss rm pid close_price).1.total_realized_pnl
        = rm.total_realized_pnl + position.close_pnl close_price position.get_open_volume
    ∧ (RiskManager.close_position_stop_loss rm pid close_price).1.consecutive_losses
        = (if position.close_pnl close_price position.get_open_volume < 0 then
            rm.consecutive_losses + 1 else 0) := by
  refine ⟨?_, ?_, ?_, ?_, ?_, ?_⟩ <;>
    simp [RiskManager.close_position_stop_loss, hlook, dictLookup_dictErase]

/-- Witness for C7: a buy of 10 units at 100 with 3 units already closed
at target 1 is stopped out at 90, closing the residual 7 units. -/
theorem stop_loss_closes_residual_volume_witness :
    dictLookup [("p1",
      { position_id := "p1", pair := "XBTUSD", side := "buy", entry_price := 100,
        volume := 10, stop_loss := 90, take_profit_1 := 110, take_profit_2 := 120,
        take_profit_3 := 130, volume_closed_tp1 := 3 : Position })] "p1"
      = some
      { position_id := "p1", pair := "XBTUSD", side := "buy", entry_price := 100,
        volume := 10, stop_loss := 90, take_profit_1 := 110, take_profit_2 := 120,
        take_profit_3 := 130, volume_closed_tp1 := 3 : Position }
    ∧ (RiskManager.close_position_stop_loss
        { config := exampleConfig,
          positions := [("p1",
            { position_id := "p1", pair := "XBTUSD", side := "buy", entry_price := 100,
              volume := 10, stop_loss := 90, take_profit_1 := 110, take_profit_2 := 120,
              take_profit_3 := 130, volume_closed_tp1 := 3 : Position })],
          closed_positions := [], consecutive_losses := 0, total_realized_pnl := 0,
          peak_capital := 10000 } "p1" 90).2
      = 7 := by
  refine ⟨rfl, ?_⟩
  have h := (stop_loss_closes_residual_volume
    { config := exampleConfig,
      positions := [("p1",
        { position_id := "p1", pair := "XBTUSD", side := "buy", entry_price := 100,
          volume := 10, stop_loss := 90, take_profit_1 := 110, take_profit_2 := 120,
          take_profit_3 := 130, volume_closed_tp1 := 3 : Position })],
      closed_positions := [], consecutive_losses := 0, total_realized_pnl := 0,
      peak_capital := 10000 } "p1" 90
    { position_id := "p1", pair := "XBTUSD", side := "buy", entry_price := 100,
      volume := 10, stop_loss := 90, take_profit_1 := 110, take_profit_2 := 120,
      take_profit_3 := 130, volume_closed_tp1 := 3 : Position } rfl).1
  rw [h]
  decide

/-! ## C5: position sizing -/

/-- C5.  For a positive entry price, `calculate_position_size` returns 0
when entry equals stop, and otherwise the minimum of the risk-budget
volume, the max-position-fraction volume and the available-capital
volume; in the latter case its notional is capped by
`max_position_size × total_capital` and by the available capital.  On the
spec's scenario (capital 10000, risk 2%, confidence 1, entry 45000,
stop 44000) the result is 1/45 ≈ 0.0222, not 0.2. -/
theorem position_size_formula_and_caps
    (rm : RiskManager) (entry_price stop_loss confidence : ℚ)
    (hentry : 0 < entry_price) :
    (entry_price = stop_loss →
      rm.calculate_position_size entry_price stop_loss confidence = 0)
    ∧ (entry_price ≠ stop_loss →
        rm.calculate_position_size entry_price stop_loss confidence =
            min (min (rm.config.total_capital * rm.config.risk_per_trade * confidence
                    / |entry_price - stop_loss|)
                (rm.config.total_capital * rm.config.max_position_size / entry_price))
              (rm.get_available_capital / entry_price)
          ∧ rm.calculate_position_size entry_price stop_loss confidence * entry_price
              ≤ rm.config.total_capital * rm.config.max_position_size
          ∧ rm.calculate_position_size entry_price stop_loss confidence * entry_price
              ≤ rm.get_available_capital)
    ∧ (RiskManager.init exampleConfig).calculate_position_size 45000 44000 1 = 1 / 45
    ∧ (1 : ℚ) / 45 ≠ 1 / 5 := by
  refine ⟨?_, ?_, by decide, by norm_num⟩
  · intro h
    simp [RiskManager.calculate_position_size, h]
  · intro h
    have habs : |entry_price - stop_loss| ≠ 0 := abs_ne_zero.mpr (sub_ne_zero.mpr h)
    have hform : rm.calculate_position_size entry_price stop_loss confidence =
        min (min (rm.config.total_capital * rm.config.risk_per_trade * confidence
              / |entry_price - stop_loss|)
            (rm.config.total_capital * rm.config.max_position_size / entry_price))
          (rm.get_available_capital / entry_price) := by
      simp [RiskManager.calculate_position_size, habs]
    refine ⟨hform, ?_, ?_⟩
    · have h1 : rm.calculate_position_size entry_price stop_loss confidence ≤
          rm.config.total_capital * rm.config.max_position_size / entry_price := by
        rw [hform]
        exact le_trans (min_le_left _ _) (min_le_right _ _)
      calc rm.calculate_position_size entry_price stop_loss confidence * entry_price
          ≤ rm.config.total_capital * rm.config.max_position_size / entry_price
              * entry_price := mul_le_mul_of_nonneg_right h1 hentry.le
        _ = rm.config.total_capital * rm.config.max_position_size :=
            div_mul_cancel₀ _ (ne_of_gt hentry)
    · have h2 : rm.calculate_position_size entry_price stop_loss confidence ≤
          rm.get_available_capital / entry_price := by
        rw [hform]
        exact min_le_right _ _
      calc rm.calculate_position_size entry_price stop_loss confidence * entry_price
          ≤ rm.get_available_capital / entry_price * entry_price :=
            mul_le_mul_of_nonneg_right h2 hentry.le
        _ = rm.get_available_capital := div_mul_cancel₀ _ (ne_of_gt hentry)

/-- Witness for C5 at the spec's scenario. -/
theorem position_size_formula_and_caps_witness :
    (0 : ℚ) < 45000
    ∧ (RiskManager.init exampleConfig).calculate_position_size 45000 44000 1 = 1 / 45 :=
  ⟨by norm_num, (position_size_formula_and_caps (RiskManager.init exampleConfig)
    45000 44000 1 (by norm_num)).2.2.1⟩

/-! ## C6: staged partial closes -/

/-- The fixed fraction of the original volume closed at each target
level: 30% at 1, 40% at 2, 30% at 3. -/
def tpFraction (tp_level : ℕ) : ℚ :=
  if tp_level = 1 then 3 / 10 else if tp_level = 2 then 4 / 10 else 3 / 10

/-- `volume_closed_tp1` after closing level `tp_level`. -/
def closed_tp1_after (position : Position) (tp_level : ℕ) : ℚ :=
  if tp_level = 1 then position.volume * (3 / 10) else position.volume_closed_tp1

/-- `volume_closed_tp2` after closing level `tp_level`. -/
def closed_tp2_after (position : Position) (tp_level : ℕ) : ℚ :=
  if tp_level = 2 then position.volume * (4 / 10) else position.volume_closed_tp2

/-- `volume_closed_tp3` after closing level `tp_level`. -/
def closed_tp3_after (position : Position) (tp_level : ℕ) : ℚ :=
  if tp_level = 3 then position.volume * (3 / 10) else position.volume_closed_tp3

lemma settle_partial_close_spec (rm : RiskManager) (pid : String)
    (position : Position) (close_price volume_to_close : ℚ) (position1 : Position)
    (hlook : dictLookup rm.positions pid = some position) :
    (RiskManager.settle_partial_close rm pid position close_price volume_to_close
        position1).2 = volume_to_close
    ∧ (RiskManager.settle_partial_close rm pid position close_price volume_to_close
        position1).1.total_realized_pnl
        = rm.total_realized_pnl + position.close_pnl close_price volume_to_close
    ∧ (position1.get_open_volume = 0 →
        dictLookup (RiskManager.settle_partial_close rm pid position close_price
            volume_to_close position1).1.positions pid = none
        ∧ (RiskManager.settle_partial_close rm pid position close_price volume_to_close
            position1).1.closed_positions
          = rm.closed_positions ++
            [{ position1 with
                realized_pnl := position1.realized_pnl +
                  position.close_pnl close_price volume_to_close,
                status := PositionStatus.CLOSED }])
    ∧ (position1.get_open_volume ≠ 0 →
        dictLookup (RiskManager.settle_partial_close rm pid position close_price
            volume_to_close position1).1.positions pid
          = some
            { position1 with
                realized_pnl := position1.realized_pnl +
                  position.close_pnl close_price volume_to_close,
                status := PositionStatus.PARTIALLY_CLOSED }) := by
  have hvol2 : ({ position1 with
      realized_pnl := position1.realized_pnl +
        position.close_pnl close_price volume_to_close } : Position).get_open_volume
      = position1.get_open_volume := rfl
  have hsome : (dictLookup rm.positions pid).isSome := by rw [hlook]; rfl
  by_cases h0 : position1.get_open_volume = 0
  · refine ⟨?_, ?_, fun _ => ⟨?_, ?_⟩, fun hne => absurd h0 hne⟩ <;>
      simp [RiskManager.settle_partial_close, hvol2, h0, dictLookup_dictErase]
  · refine ⟨?_, ?_, fun he => absurd he h0, fun _ => ?_⟩ <;>
      simp [RiskManager.settle_partial_close, hvol2, h0, dictLookup_dictUpdate _ _ _ hsome]

/-- C6.  `close_position_partial` on a live position closes exactly 30%,
40%, 30% of the original total volume at levels 1, 2, 3, adds the
slice's PnL to the realized total, and — provided every previously
closed level holds its canonical fraction and the volume is positive —
the position becomes CLOSED and moves to the closed history exactly when
the three closed volumes sum to the original total (equivalently, when
all three levels have now been closed), and stays live as
PARTIALLY_CLOSED otherwise. -/
theorem close_position_partial_staged
    (rm : RiskManager) (pid : String) (tp_level : ℕ) (close_price : ℚ)
    (position : Position)
    (hlook : dictLookup rm.positions pid = some position)
    (hvol : 0 < position.volume)
    (hlvl : tp_level = 1 ∨ tp_level = 2 ∨ tp_level = 3)
    (h1 : position.volume_closed_tp1 = 0
        ∨ position.volume_closed_tp1 = position.volume * (3 / 10))
    (h2 : position.volume_closed_tp2 = 0
        ∨ position.volume_closed_tp2 = position.volume * (4 / 10))
    (h3 : position.volume_closed_tp3 = 0
        ∨ position.volume_closed_tp3 = position.volume * (3 / 10)) :
    (RiskManager.close_position_partial rm pid tp_level close_price).2
        = position.volume * tpFraction tp_level
    ∧ (RiskManager.close_position_partial rm pid tp_level close_price).1.total_realized_pnl
        = rm.total_realized_pnl +
          position.close_pnl close_price (position.volume * tpFraction tp_level)
    ∧ (closed_tp1_after position tp_level + closed_tp2_after position tp_level
          + closed_tp3_after position tp_level = position.volume →
        dictLookup (RiskManager.close_position_partial rm pid tp_level
            close_price).1.positions pid = none
        ∧ ∃ q, (RiskManager.close_position_partial rm pid tp_level
                close_price).1.closed_positions = rm.closed_positions ++ [q]
            ∧ q.status = PositionStatus.CLOSED
            ∧ q.volume_closed_tp1 + q.volume_closed_tp2 + q.volume_closed_tp3
                = position.volume)
    ∧ (closed_tp1_after position tp_level + closed_tp2_after position tp_level
          + closed_tp3_after position tp_level ≠ position.volume →
        ∃ q, dictLookup (RiskManager.close_position_partial rm pid tp_level
              close_price).1.positions pid = some q
          ∧ q.status = PositionStatus.PARTIALLY_CLOSED)
    ∧ (closed_tp1_after position tp_level + closed_tp2_after position tp_level
          + closed_tp3_after position tp_level = position.volume
        ↔ closed_tp1_after position tp_level = position.volume * (3 / 10)
          ∧ closed_tp2_after position tp_level = position.volume * (4 / 10)
          ∧ closed_tp3_after position tp_level = position.volume * (3 / 10)) := by
  rcases hlvl with rfl | rfl | rfl
  · have hred : RiskManager.close_position_partial rm pid 1 close_price
        = RiskManager.settle_partial_close rm pid position close_price
            (position.volume * (3 / 10))
            { position with volume_closed_tp1 := position.volume * (3 / 10) } := by
      simp [RiskManager.close_position_partial, hlook]
    have hs := settle_partial_close_spec rm pid position close_price
      (position.volume * (3 / 10))
      { position with volume_closed_tp1 := position.volume * (3 / 10) } hlook
    have hopen : ({ position with volume_closed_tp1 := position.volume * (3 / 10) }
        : Position).get_open_volume = 0
        ↔ closed_tp1_after position 1 + closed_tp2_after position 1
            + closed_tp3_after position 1 = position.volume := by
      simp only [Position.get_open_volume, closed_tp1_after, closed_tp2_after,
        closed_tp3_after]
      norm_num
      constructor <;> intro hh <;> linarith
    rw [hred]
    refine ⟨?_, ?_, fun hdone => ?_, fun hnot => ?_, ?_⟩
    · simpa [tpFraction] using hs.1
    · simpa [tpFraction] using hs.2.1
    · have hz := hs.2.2.1 (hopen.mpr hdone)
      refine ⟨hz.1, ⟨_, hz.2, rfl, ?_⟩⟩
      simp only [closed_tp1_after, closed_tp2_after, closed_tp3_after] at hdone
      simpa using hdone
    · have hz := hs.2.2.2 fun he => hnot (hopen.mp he)
      exact ⟨_, hz, rfl⟩
    · have e1 : closed_tp1_after position 1 = position.volume * (3 / 10) := rfl
      have e2 : closed_tp2_after position 1 = position.volume_closed_tp2 := rfl
      have e3 : closed_tp3_after position 1 = position.volume_closed_tp3 := rfl
      rw [e1, e2, e3]
      constructor
      · intro hh
        refine ⟨rfl, ?_, ?_⟩
        · rcases h2 with h2 | h2
          · exfalso
            rcases h3 with h3 | h3 <;> rw [h2, h3] at hh <;> linarith
          · exact h2
        · rcases h3 with h3 | h3
          · exfalso
            rcases h2 with h2 | h2 <;> rw [h2, h3] at hh <;> linarith
          · exact h3
      · rintro ⟨-, hh2, hh3⟩
        rw [hh2, hh3]; ring
  · have hred : RiskManager.close_position_partial rm pid 2 close_price
        = RiskManager.settle_partial_close rm pid position close_price
            (position.volume * (4 / 10))
            { position with volume_closed_tp2 := position.volume * (4 / 10) } := by
      simp [RiskManager.close_position_partial, hlook]
    have hs := settle_partial_close_spec rm pid position close_price
      (position.volume * (4 / 10))
      { position with volume_closed_tp2 := position.volume * (4 / 10) } hlook
    have hopen : ({ position with volume_closed_tp2 := position.volume * (4 / 10) }
        : Position).get_open_volume = 0
        ↔ closed_tp1_after position 2 + closed_tp2_after position 2
            + closed_tp3_after position 2 = position.volume := by
      simp only [Position.get_open_volume, closed_tp1_after, closed_tp2_after,
        closed_tp3_after]
      norm_num
      constructor <;> intro hh <;> linarith
    rw [hred]
    refine ⟨?_, ?_, fun hdone => ?_, fun hnot => ?_, ?_⟩
    · simpa [tpFraction] using hs.1
    · simpa [tpFraction] using hs.2.1
    · have hz := hs.2.2.1 (hopen.mpr hdone)
      refine ⟨hz.1, ⟨_, hz.2, rfl, ?_⟩⟩
      simp only [closed_tp1_after, closed_tp2_after, closed_tp3_after] at hdone
      simpa using hdone
    · have hz := hs.2.2.2 fun he => hnot (hopen.mp he)
      exact ⟨_, hz, rfl⟩
    · have e1 : closed_tp1_after position 2 = position.volume_closed_tp1 := rfl
      have e2 : closed_tp2_after position 2 = position.volume * (4 / 10) := rfl
      have e3 : closed_tp3_after position 2 = position.volume_closed_tp3 := rfl
      rw [e1, e2, e3]
      constructor
      · intro hh
        refine ⟨?_, rfl, ?_⟩
        · rcases h1 with h1 | h1
          · exfalso
            rcases h3 with h3 | h3 <;> rw [h1, h3] at hh <;> linarith
          · exact h1
        · rcases h3 with h3 | h3
          · exfalso
            rcases h1 with h1 | h1 <;> rw [h1, h3] at hh <;> linarith
          · exact h3
      · rintro ⟨hh1, -, hh3⟩
        rw [hh1, hh3]; ring
  · have hred : RiskManager.close_position_partial rm pid 3 close_price
        = RiskManager.settle_partial_close rm pid position close_price
            (position.volume * (3 / 10))
            { position with volume_closed_tp3 := position.volume * (3 / 10) } := by
      simp [RiskManager.close_position_partial, hlook]
    have hs := settle_partial_close_spec rm pid position close_price
      (position.volume * (3 / 10))
      { position with volume_closed_tp3 := position.volume * (3 / 10) } hlook
    have hopen : ({ position with volume_closed_tp3 := position.volume * (3 / 10) }
        : Position).get_open_volume = 0
        ↔ closed_tp1_after position 3 + closed_tp2_after position 3
            + closed_tp3_after position 3 = position.volume := by
      simp only [Position.get_open_volume, closed_tp1_after, closed_tp2_after,
        closed_tp3_after]
      norm_num
      constructor <;> intro hh <;> linarith
    rw [hred]
    refine ⟨?_, ?_, fun hdone => ?_, fun hnot => ?_, ?_⟩
    · simpa [tpFraction] using hs.1
    · simpa [tpFraction] using hs.2.1
    · have hz := hs.2.2.1 (hopen.mpr hdone)
      refine ⟨hz.1, ⟨_, hz.2, rfl, ?_⟩⟩
      simp only [closed_tp1_after, closed_tp2_after, closed_tp3_after] at hdone
      simpa using hdone
    · have hz := hs.2.2.2 fun he => hnot (hopen.mp he)
      exact ⟨_, hz, rfl⟩
    · have e1 : closed_tp1_after position 3 = position.volume_closed_tp1 := rfl
      have e2 : closed_tp2_after position 3 = position.volume_closed_tp2 := rfl
      have e3 : closed_tp3_after position 3 = position.volume * (3 / 10) := rfl
      rw [e1, e2, e3]
      constructor
      · intro hh
        refine ⟨?_, ?_, rfl⟩
        · rcases h1 with h1 | h1
          · exfalso
            rcases h2 with h2 | h2 <;> rw [h1, h2] at hh <;> linarith
          · exact h1
        · rcases h2 with h2 | h2
          · exfalso
            rcases h1 with h1 | h1 <;> rw [h1, h2] at hh <;> linarith
          · exact h2
      · rintro ⟨hh1, hh2, -⟩
        rw [hh1, hh2]; ring

/-- A live position used by several witnesses: a buy of 10 units at 100
with no closes yet. -/
def examplePosition : Position :=
  { position_id := "p1"
    pair := "XBTUSD"
    side := "buy"
    entry_price := 100
    volume := 10
    stop_loss := 90
    take_profit_1 := 110
    take_profit_2 := 120
    take_profit_3 := 130 }

/-- A manager holding `examplePosition` as its only live position. -/
def exampleManager : RiskManager :=
  { config := exampleConfig
    positions := [("p1", examplePosition)]
    closed_positions := []
    consecutive_losses := 0
    total_realized_pnl := 0
    peak_capital := 10000 }

/-- Witness for C6: closing target 1 of a fresh 10-unit position closes
exactly 30% of the original volume. -/
theorem close_position_partial_staged_witness :
    dictLookup exampleManager.positions "p1" = some examplePosition
    ∧ (RiskManager.close_position_partial exampleManager "p1" 1 105).2
        = examplePosition.volume * tpFraction 1 :=
  ⟨rfl, (close_position_partial_staged exampleManager "p1" 1 105 examplePosition rfl
    (by decide) (Or.inl rfl) (Or.inl rfl) (Or.inl rfl) (Or.inl rfl)).1⟩

/-! ## C8: the available-capital invariant -/

/-- The states reachable from `RiskManager.init cfg` by the claim's four
operations, with every opened volume computed by
`calculate_position_size` and all other arguments arbitrary. -/
inductive ReachableRM (cfg : RiskConfig) : RiskManager → Prop where
  | init : ReachableRM cfg (RiskManager.init cfg)
  | open_step (rm : RiskManager) (pid pair side : String)
      (entry stop conf sl t1 t2 t3 : ℚ) :
      ReachableRM cfg rm →
      ReachableRM cfg (RiskManager.open_position rm pid pair side entry
        (RiskManager.calculate_position_size rm entry stop conf) sl t1 t2 t3).1
  | update_step (rm : RiskManager) (pid : String) (price : ℚ) :
      ReachableRM cfg rm →
      ReachableRM cfg (RiskManager.update_position_price rm pid price)
  | close_tp_step (rm : RiskManager) (pid : String) (tp_level : ℕ) (price : ℚ) :
      ReachableRM cfg rm →
      ReachableRM cfg (RiskManager.close_position_partial rm pid tp_level price).1
  | stop_step (rm : RiskManager) (pid : String) (price : ℚ) :
      ReachableRM cfg rm →
      ReachableRM cfg (RiskManager.close_position_stop_loss rm pid price).1

/-- C8 counterexample.  From capital 10000: open a sell of 10 units at
entry 100 (volume from `calculate_position_size` with stop 98,
confidence 1), then update the price to 2100.  The unrealized loss of
20000 drives the available capital to −11000: the claimed invariant
fails on a reachable state. -/
theorem available_capital_goes_negative :
    ∃ rm : RiskManager, ReachableRM exampleConfig rm
      ∧ rm.get_available_capital < 0 := by
  refine ⟨RiskManager.update_position_price
    (RiskManager.open_position (RiskManager.init exampleConfig) "p1" "XBTUSD" "sell"
      100 (RiskManager.calculate_position_size (RiskManager.init exampleConfig)
        100 98 1) 98 110 120 130).1 "p1" 2100, ?_, ?_⟩
  · exact ReachableRM.update_step _ "p1" 2100
      (ReachableRM.open_step _ "p1" "XBTUSD" "sell" 100 98 1 98 110 120 130
        ReachableRM.init)
  · decide

/-- The states reachable by `open_position` steps alone (fresh position
ids, positive entry prices, volumes from `calculate_position_size`), from
an initial state with nonnegative capital. -/
inductive ReachableByOpens (cfg : RiskConfig) : RiskManager → Prop where
  | init (h : 0 ≤ cfg.total_capital) : ReachableByOpens cfg (RiskManager.init cfg)
  | open_step (rm : RiskManager) (pid pair side : String)
      (entry stop conf sl t1 t2 t3 : ℚ)
      (hentry : 0 < entry) (hfresh : dictLookup rm.positions pid = none) :
      ReachableByOpens cfg rm →
      ReachableByOpens cfg (RiskManager.open_position rm pid pair side entry
        (RiskManager.calculate_position_size rm entry stop conf) sl t1 t2 t3).1

lemma open_position_preserves_available
    (rm : RiskManager) (pid pair side : String)
    (entry stop conf sl t1 t2 t3 : ℚ)
    (hentry : 0 < entry) (hfresh : dictLookup rm.positions pid = none)
    (havail : 0 ≤ rm.get_available_capital) :
    0 ≤ (RiskManager.open_position rm pid pair side entry
      (RiskManager.calculate_position_size rm entry stop conf)
      sl t1 t2 t3).1.get_available_capital := by
  by_cases hcan : (rm.can_open_position).1 = false
  · simpa [RiskManager.open_position, hcan] using havail
  · have hvle : RiskManager.calculate_position_size rm entry stop conf
        ≤ rm.get_available_capital / entry := by
      unfold RiskManager.calculate_position_size
      by_cases hz : |entry - stop| = 0
      · simp [hz]
        positivity
      · simp only [hz, if_false]
        exact min_le_right _ _
    have hmul : RiskManager.calculate_position_size rm entry stop conf * entry
        ≤ rm.get_available_capital := by
      calc RiskManager.calculate_position_size rm entry stop conf * entry
          ≤ rm.get_available_capital / entry * entry :=
            mul_le_mul_of_nonneg_right hvle hentry.le
        _ = rm.get_available_capital := div_mul_cancel₀ _ (ne_of_gt hentry)
    have hins : dictInsert rm.positions pid
        { position_id := pid, pair := pair, side := side, entry_price := entry,
          volume := RiskManager.calculate_position_size rm entry stop conf,
          stop_loss := sl, take_profit_1 := t1, take_profit_2 := t2,
          take_profit_3 := t3 }
        = rm.positions ++ [(pid,
          { position_id := pid, pair := pair, side := side, entry_price := entry,
            volume := RiskManager.calculate_position_size rm entry stop conf,
            stop_loss := sl, take_profit_1 := t1, take_profit_2 := t2,
            take_profit_3 := t3 })] := by
      simp [dictInsert, hfresh]
    have : (RiskManager.open_position rm pid pair side entry
        (RiskManager.calculate_position_size rm entry stop conf)
        sl t1 t2 t3).1.get_available_capital
        = rm.get_available_capital
          - entry * RiskManager.calculate_position_size rm entry stop conf := by
      simp [RiskManager.open_position, hcan, RiskManager.get_available_capital,
        RiskManager.get_current_capital, hins, Position.get_open_volume]
      ring
    rw [this]
    nlinarith [hmul]

/-- C8 amended.  Along open-only traces — fresh ids, positive entry
prices, volumes from `calculate_position_size` — the available capital
stays nonnegative: the sizing clamp protects the open operation.  (The
full four-operation invariant is refuted by
the counterexample above, since price updates and closes can realize
unbounded losses.) -/
theorem available_capital_nonneg_on_open_traces
    (cfg : RiskConfig) (rm : RiskManager) (h : ReachableByOpens cfg rm) :
    0 ≤ rm.get_available_capital := by
  induction h with
  | init h0 =>
    simpa [RiskManager.init, RiskManager.get_available_capital,
      RiskManager.get_current_capital] using h0
  | open_step rm pid pair side entry stop conf sl t1 t2 t3 hentry hfresh _ ih =>
    exact open_position_preserves_available rm pid pair side entry stop conf
      sl t1 t2 t3 hentry hfresh ih

/-- Witness for C8's amended statement at the initial state. -/
theorem available_capital_nonneg_on_open_traces_witness :
    0 ≤ (RiskManager.init exampleConfig).get_available_capital :=
  available_capital_nonneg_on_open_traces exampleConfig
    (RiskManager.init exampleConfig) (ReachableByOpens.init (by norm_num [exampleConfig]))


/-! ## C1: when signal generation raises AttributeError -/

lemma uptrend_emas (ind : TechnicalIndicators)
    (h : MarketDataProcessor.get_trend ind = "UPTREND") :
    ind.ema_12 > ind.ema_50 ∧ ind.ema_50 > ind.ema_200 := by
  by_cases hc : ind.ema_12 > ind.ema_50 ∧ ind.ema_50 > ind.ema_200
  · exact hc
  · exfalso
    unfold MarketDataProcessor.get_trend at h
    rw [if_neg hc] at h
    split at h
    · exact absurd h (by decide)
    · exact absurd h (by decide)

lemma downtrend_emas (ind : TechnicalIndicators)
    (h : MarketDataProcessor.get_trend ind = "DOWNTREND") :
    ind.ema_12 < ind.ema_50 ∧ ind.ema_50 < ind.ema_200 := by
  by_cases hc : ind.ema_12 > ind.ema_50 ∧ ind.ema_50 > ind.ema_200
  · exfalso
    unfold MarketDataProcessor.get_trend at h
    rw [if_pos hc] at h
    exact absurd h (by decide)
  · by_cases hd : ind.ema_12 < ind.ema_50 ∧ ind.ema_50 < ind.ema_200
    · exact hd
    · exfalso
      unfold MarketDataProcessor.get_trend at h
      rw [if_neg hc, if_neg hd] at h
      exact absurd h (by decide)

lemma screen_signal_error_iff (g : SignalConfig)
    (r : Except AttrError (Option TradingSignal)) (e : AttrError) :
    SignalGenerator.screen_signal g r = Except.error e ↔ r = Except.error e := by
  rcases r with e' | ob
  · simp [SignalGenerator.screen_signal]
  · rcases ob with - | b
    · simp [SignalGenerator.screen_signal]
    · by_cases hb : b.confidence ≥ g.min_confidence <;>
        simp [SignalGenerator.screen_signal, hb]

lemma generate_buy_signal_error_iff (g : SignalConfig) (ind : TechnicalIndicators)
    (price mult : ℚ) (h12 : ind.ema_12 > ind.ema_50) :
    (SignalGenerator.generate_buy_signal g ind price mult
        = Except.error AttrError.macd_histogram_prev_attr
      ↔ ind.adx_14 > g.adx_threshold - 5 ∧ ind.macd_histogram ≤ 0)
    ∧ SignalGenerator.generate_buy_signal g ind price mult
        ≠ Except.error AttrError.close_attr := by
  have htc : SignalGenerator.check_trend_confirmation g ind "UPTREND"
      = Except.ok (decide (ind.adx_14 > g.adx_threshold - 5)) := by
    simp [SignalGenerator.check_trend_confirmation, h12]
  by_cases hadx : ind.adx_14 > g.adx_threshold - 5
  · by_cases hh : ind.macd_histogram > 0
    · have hmc : SignalGenerator.check_momentum_signal g ind SignalType.BUY
          = Except.ok (decide (ind.rsi_14 < g.rsi_oversold + 10)) := by
        simp [SignalGenerator.check_momentum_signal, hh]
      have hne : ∀ e : AttrError,
          SignalGenerator.generate_buy_signal g ind price mult ≠ Except.error e := by
        intro e
        rw [SignalGenerator.generate_buy_signal, htc, hmc]
        simp only [hadx, decide_eq_true_eq, eq_self_iff_true]
        simp [hadx]
        split_ifs <;> simp
      refine ⟨⟨fun habs => absurd habs (hne _), fun hrhs => absurd hh (not_lt.mpr hrhs.2)⟩,
        hne _⟩
    · have hmc : SignalGenerator.check_momentum_signal g ind SignalType.BUY
          = Except.error AttrError.macd_histogram_prev_attr := by
        simp [SignalGenerator.check_momentum_signal, hh]
      have hgen : SignalGenerator.generate_buy_signal g ind price mult
          = Except.error AttrError.macd_histogram_prev_attr := by
        rw [SignalGenerator.generate_buy_signal, htc, hmc]
        simp [hadx]
      rw [hgen]
      refine ⟨⟨fun _ => ⟨hadx, le_of_not_lt hh⟩, fun _ => rfl⟩, by simp⟩
  · have hgen : SignalGenerator.generate_buy_signal g ind price mult
        = Except.ok none := by
      rw [SignalGenerator.generate_buy_signal, htc]
      simp [hadx]
    rw [hgen]
    refine ⟨⟨fun h => Except.noConfusion h, fun hr => absurd hr.1 hadx⟩, by simp⟩

lemma generate_sell_signal_error_iff (g : SignalConfig) (ind : TechnicalIndicators)
    (price mult : ℚ) (h12 : ind.ema_12 < ind.ema_50) :
    (SignalGenerator.generate_sell_signal g ind price mult
        = Except.error AttrError.macd_histogram_prev_attr
      ↔ ind.adx_14 > g.adx_threshold - 5 ∧ 0 ≤ ind.macd_histogram)
    ∧ SignalGenerator.generate_sell_signal g ind price mult
        ≠ Except.error AttrError.close_attr := by
  have htc : SignalGenerator.check_trend_confirmation g ind "DOWNTREND"
      = Except.ok (decide (ind.adx_14 > g.adx_threshold - 5)) := by
    simp [SignalGenerator.check_trend_confirmation, h12, asymm h12]
  by_cases hadx : ind.adx_14 > g.adx_threshold - 5
  · by_cases hh : ind.macd_histogram < 0
    · have hmc : SignalGenerator.check_momentum_signal g ind SignalType.SELL
          = Except.ok (decide (ind.rsi_14 > g.rsi_overbought - 10)) := by
        simp [SignalGenerator.check_momentum_signal, hh]
      have hne : ∀ e : AttrError,
          SignalGenerator.generate_sell_signal g ind price mult ≠ Except.error e := by
        intro e
        rw [SignalGenerator.generate_sell_signal, htc, hmc]
        simp [hadx]
        split_ifs <;> simp
      refine ⟨⟨fun habs => absurd habs (hne _), fun hrhs => absurd hh (not_lt.mpr hrhs.2)⟩,
        hne _⟩
    · have hmc : SignalGenerator.check_momentum_signal g ind SignalType.SELL
          = Except.error AttrError.macd_histogram_prev_attr := by
        simp [SignalGenerator.check_momentum_signal, hh]
      have hgen : SignalGenerator.generate_sell_signal g ind price mult
          = Except.error AttrError.macd_histogram_prev_attr := by
        rw [SignalGenerator.generate_sell_signal, htc, hmc]
        simp [hadx]
      rw [hgen]
      refine ⟨⟨fun _ => ⟨hadx, le_of_not_lt hh⟩, fun _ => rfl⟩, by simp⟩
  · have hgen : SignalGenerator.generate_sell_signal g ind price mult
        = Except.ok none := by
      rw [SignalGenerator.generate_sell_signal, htc]
      simp [hadx]
    rw [hgen]
    refine ⟨⟨fun h => Except.noConfusion h, fun hr => absurd hr.1 hadx⟩, by simp⟩

lemma generate_signal_eq (g : SignalConfig) (sqrtQ : ℚ → ℚ)
    (ohlcv_data : List (List ℚ)) (price mult : ℚ) (ind : TechnicalIndicators)
    (hind : MarketDataProcessor.process_ohlcv sqrtQ 200 ohlcv_data = some ind) :
    SignalGenerator.generate_signal g sqrtQ ohlcv_data price mult =
      (if MarketDataProcessor.get_trend ind = "UPTREND" then
        SignalGenerator.screen_signal g
          (SignalGenerator.generate_buy_signal g ind price mult)
      else if MarketDataProcessor.get_trend ind = "DOWNTREND" then
        SignalGenerator.screen_signal g
          (SignalGenerator.generate_sell_signal g ind price mult)
      else Except.ok none) := by
  rw [SignalGenerator.generate_signal, hind]

/-- C1 amended.  For a window long enough to yield a snapshot:
a SIDEWAYS trend returns no signal normally; under UPTREND the generator
raises the `macd_histogram_prev` AttributeError exactly when the
trend-strength gate passes (`adx_14 > adx_threshold − 5`) and the MACD
histogram is ≤ 0 (for DOWNTREND, ≥ 0); and the `close` AttributeError is
never raised, because the trend classification makes the EMA-alignment
disjunction short-circuit before `indicators.close` is read. -/
theorem attribute_error_characterization
    (g : SignalConfig) (sqrtQ : ℚ → ℚ) (ohlcv_data : List (List ℚ))
    (price mult : ℚ) (ind : TechnicalIndicators)
    (hind : MarketDataProcessor.process_ohlcv sqrtQ 200 ohlcv_data = some ind) :
    (MarketDataProcessor.get_trend ind = "SIDEWAYS" →
      SignalGenerator.generate_signal g sqrtQ ohlcv_data price mult = Except.ok none)
    ∧ (MarketDataProcessor.get_trend ind = "UPTREND" →
        (SignalGenerator.generate_signal g sqrtQ ohlcv_data price mult
            = Except.error AttrError.macd_histogram_prev_attr
          ↔ ind.adx_14 > g.adx_threshold - 5 ∧ ind.macd_histogram ≤ 0))
    ∧ (MarketDataProcessor.get_trend ind = "DOWNTREND" →
        (SignalGenerator.generate_signal g sqrtQ ohlcv_data price mult
            = Except.error AttrError.macd_histogram_prev_attr
          ↔ ind.adx_14 > g.adx_threshold - 5 ∧ 0 ≤ ind.macd_histogram))
    ∧ SignalGenerator.generate_signal g sqrtQ ohlcv_data price mult
        ≠ Except.error AttrError.close_attr := by
  rw [generate_signal_eq g sqrtQ ohlcv_data price mult ind hind]
  refine ⟨?_, ?_, ?_, ?_⟩
  · intro hs
    rw [hs]
    rfl
  · intro hu
    obtain ⟨h12, -⟩ := uptrend_emas ind hu
    obtain ⟨hiff, -⟩ := generate_buy_signal_error_iff g ind price mult h12
    rw [if_pos hu, screen_signal_error_iff]
    exact hiff
  · intro hd
    obtain ⟨h12, -⟩ := downtrend_emas ind hd
    obtain ⟨hiff, -⟩ := generate_sell_signal_error_iff g ind price mult h12
    have hne : MarketDataProcessor.get_trend ind ≠ "UPTREND" := by
      rw [hd]; decide
    rw [if_neg hne, if_pos hd, screen_signal_error_iff]
    exact hiff
  · by_cases hu : MarketDataProcessor.get_trend ind = "UPTREND"
    · obtain ⟨h12, -⟩ := uptrend_emas ind hu
      obtain ⟨-, hnc⟩ := generate_buy_signal_error_iff g ind price mult h12
      rw [if_pos hu, Ne, screen_signal_error_iff]
      exact hnc
    · rw [if_neg hu]
      by_cases hd : MarketDataProcessor.get_trend ind = "DOWNTREND"
      · obtain ⟨h12, -⟩ := downtrend_emas ind hd
        obtain ⟨-, hnc⟩ := generate_sell_signal_error_iff g ind price mult h12
        rw [if_pos hd, Ne, screen_signal_error_iff]
        exact hnc
      · rw [if_neg hd]
        simp

/-- The snapshot `process_ohlcv` computes on `rampWindow` (total
function: the fallback record is unreachable since the window has 200
bars). -/
def rampIndicators : TechnicalIndicators :=
  match MarketDataProcessor.process_ohlcv sqrt0 200 rampWindow with
  | some ind => ind
  | none =>
    { ema_12 := 0, ema_50 := 0, ema_200 := 0, rsi_14 := 0, macd := 0,
      macd_signal := 0, macd_histogram := 0, bb_upper := 0, bb_middle := 0,
      bb_lower := 0, atr_14 := 0, adx_14 := 0, volume_ma := 0, current_volume := 0 }

/-- C1 counterexample.  `rampWindow` has the configured minimum of 200
bars and its EMA ordering classifies the trend as UPTREND, yet
`generate_signal` returns normally (no signal) instead of raising
`AttributeError`: the rising market keeps the MACD histogram positive, so
the momentum check's `or` short-circuits before reading
`macd_histogram_prev`, and `indicators.close` is never read at all. -/
theorem uptrend_window_generates_normally :
    rampWindow.length = 200
    ∧ (MarketDataProcessor.process_ohlcv sqrt0 200 rampWindow).map
        MarketDataProcessor.get_trend = some "UPTREND"
    ∧ SignalGenerator.generate_signal SignalGenerator.defaultConfig sqrt0 rampWindow
        300 2 = Except.ok none := by
  refine ⟨rfl, by decide, rfl⟩

/-- Witness for C1's characterization at `rampWindow`. -/
theorem attribute_error_characterization_witness :
    MarketDataProcessor.process_ohlcv sqrt0 200 rampWindow = some rampIndicators
    ∧ SignalGenerator.generate_signal SignalGenerator.defaultConfig sqrt0 rampWindow
        300 2 ≠ Except.error AttrError.close_attr :=
  ⟨rfl, (attribute_error_characterization SignalGenerator.defaultConfig sqrt0
    rampWindow 300 2 rampIndicators rfl).2.2.2⟩
